import Mathlib

/-!
Verification of the session-registry and authentication handlers of the
neutron mail API (`Auth`, `AuthInfo`, `AuthCookies`, `DeleteAuth`) against
their natural-language specification. The handlers are shallowly embedded as
pure functions over an explicit session table; external collaborators
(credential backend, request-context extraction, JSON/HTTP plumbing) are
threaded in as explicit inputs, as the specification directs.
-/

namespace Neutron

/-- Modelled from the spec: the response codes of the `Resp` envelope. The
`Resp` type and its constants are declared outside the provided source file;
the four codes below are the ones the handlers use. -/
inductive RespCode where
  | Ok
  | BadRequest
  | Unauthorized
  | InternalServerError
deriving DecidableEq, Repr

/-- Modelled from the spec: the `Session` struct is declared outside the
provided source file; its fields are the ones the handlers read
(`session.ID`, `session.UserID`, `session.Token`). The `onClose` teardown
callback registered by `Auth` is modelled separately as `sessionClose`. -/
structure Session where
  ID : String
  UserID : String
  Token : String
deriving DecidableEq, Repr

/-- The in-memory session table `api.sessions` (a Go map from session ID to
`Session`), modelled as an association list; `Registry.insert` keeps keys
unique, matching Go map assignment semantics. -/
abbrev Registry := List (String × Session)

/-- Go map read `m[k]`. -/
def Registry.lookup (r : Registry) (k : String) : Option Session :=
  (r.find? (fun p => p.1 == k)).map (fun p => p.2)

/-- Go map `delete(m, k)`. -/
def Registry.erase (r : Registry) (k : String) : Registry :=
  r.filter (fun p => p.1 != k)

/-- Go map assignment `m[k] = v` (insert or overwrite). -/
def Registry.insert (r : Registry) (k : String) (v : Session) : Registry :=
  (k, v) :: Registry.erase r k

/-- The teardown closure registered by `Auth` (source lines 93-105): delete
the session from the table, scan the remaining entries for another session
with the same `UserID`, and if none remains call
`backend.DeleteAllEvents(session.UserID)`. The second component is the list
of user IDs passed to `DeleteAllEvents`. -/
def sessionClose (sessions : Registry) (session : Session) :
    Registry × List String :=
  let sessions' := Registry.erase sessions session.ID
  if sessions'.any (fun p => p.2.UserID == session.UserID) then
    (sessions', [])
  else
    (sessions', [session.UserID])

/-- The `ErrorResp` body: embedded response code plus error kind and
human-readable description, as populated by the handlers. -/
structure ErrorResp where
  code : RespCode
  Error : String
  ErrorDescription : String
deriving DecidableEq, Repr

/-- Modelled from the spec: `newErrorResp` is declared outside the provided
source file; the spec describes it as building a generic error envelope from
an error, so it carries the error's message as the description. The code and
kind fields are not fixed by the spec; they are a fixed generic choice here
and no theorem below depends on them. -/
def newErrorResp (msg : String) : ErrorResp :=
  { code := RespCode.InternalServerError
    Error := "invalid_request"
    ErrorDescription := msg }

/-- The `AuthResp` success body (source lines 26-38); fields the handler does
not set keep their Go zero value. -/
structure AuthResp where
  code : RespCode
  AccessToken : String
  ExpiresIn : Nat
  TokenType : String
  Scope : String
  Uid : String
  RefreshToken : String
  UserStatus : Nat
  PrivateKey : String
  KeySalt : String
  EventID : String
deriving DecidableEq, Repr

/-- The `AuthCookiesResp` success body (source lines 48-51). -/
structure AuthCookiesResp where
  code : RespCode
  SessionToken : String
deriving DecidableEq, Repr

/-- The `AuthCookie` cookie payload (source lines 53-56): a projection of the
session's token and ID, serialized to JSON by external plumbing. -/
structure AuthCookie where
  AccessToken : String
  Uid : String
deriving DecidableEq, Repr

/-- A cookie value: either a raw string (the empty value set by `DeleteAuth`)
or the JSON serialization of an `AuthCookie` (the marshalling itself is
external plumbing, so the payload is kept structured). -/
inductive CookieValue where
  | str (s : String)
  | auth (c : AuthCookie)
deriving DecidableEq, Repr

/-- A `ctx.SetCookie` call: name, value, max-age, path, domain, secure,
http-only, in the argument order of the source. -/
structure Cookie where
  name : String
  value : CookieValue
  maxAge : Int
  path : String
  domain : String
  secure : Bool
  httpOnly : Bool
deriving DecidableEq, Repr

/-- A response body written by `ctx.JSON`. -/
inductive HttpBody where
  | err (e : ErrorResp)
  | auth (r : AuthResp)
  | authCookies (r : AuthCookiesResp)
  | plain (code : RespCode)
deriving DecidableEq, Repr

/-- An HTTP response: status code and body, as passed to `ctx.JSON`. -/
structure HttpResponse where
  status : Nat
  body : HttpBody
deriving DecidableEq, Repr

/-- The observable outcome of one handler invocation: the session table after
the call, the cookies set, the user IDs passed to `backend.DeleteAllEvents`,
and the HTTP response. -/
structure HandlerOut where
  sessions : Registry
  cookies : List Cookie
  deletedEvents : List String
  response : HttpResponse
deriving DecidableEq, Repr

/-- The error kind of an outcome's body, if the body is an error. -/
def errKind (out : HandlerOut) : Option String :=
  match out.response.body with
  | HttpBody.err e => some e.Error
  | _ => none

/-- Modelled from the spec: a user's address key pair. `Encrypt` wraps a
plaintext under the key (the concrete crypto is an external collaborator);
`PrivateKey` is the key material echoed in the auth response. -/
structure Key where
  PrivateKey : String
  Encrypt : String → Except String String

/-- Modelled from the spec: an address with its key list, as read via
`user.GetMainAddress().Keys`. -/
structure Address where
  Keys : List Key

/-- Modelled from the spec: the user context returned by `backend.Auth`;
`GetMainAddress` is modelled as a stored main address. -/
structure User where
  ID : String
  mainAddress : Address

/-- The user's main address (declared outside the provided source file). -/
def User.GetMainAddress (u : User) : Address := u.mainAddress

/-- Modelled from the spec: the external collaborator results consumed by the
`Auth` handler, threaded in as explicit inputs: the result of
`backend.Auth(username, password)` (a user context, or an error message), the
result of `api.populateCurrentUser(user)` (an optional error message), and the
result of `backend.GetLastEvent(user.ID)` (a last event ID, or an error
message). -/
structure AuthEnv where
  authResult : Except String User
  populateErr : Option String
  lastEvent : Except String String

/-- The `Auth` handler (source lines 75-142). `freshID` and `freshToken` are
the pair generated by `NewSession` (modelled from the spec: `NewSession`
allocates a fresh unique ID and token; the generator is outside the provided
source file). The registered teardown closure is modelled by `sessionClose`;
the handler itself only inserts the session. -/
def Auth (sessions : Registry) (env : AuthEnv) (freshID freshToken : String) :
    HandlerOut :=
  match env.authResult with
  | Except.error msg =>
    { sessions := sessions, cookies := [], deletedEvents := []
      response := ⟨200, HttpBody.err ⟨RespCode.Unauthorized, "invalid_grant", msg⟩⟩ }
  | Except.ok user =>
    match env.populateErr with
    | some msg =>
      { sessions := sessions, cookies := [], deletedEvents := []
        response := ⟨200, HttpBody.err (newErrorResp msg)⟩ }
    | none =>
      match (User.GetMainAddress user).Keys with
      | [] =>
        { sessions := Registry.insert sessions freshID ⟨freshID, user.ID, freshToken⟩
          cookies := [], deletedEvents := []
          response := ⟨200, HttpBody.err (newErrorResp "User has no private key")⟩ }
      | kp :: _ =>
        match kp.Encrypt freshToken with
        | Except.error msg =>
          { sessions := Registry.insert sessions freshID ⟨freshID, user.ID, freshToken⟩
            cookies := [], deletedEvents := []
            response := ⟨200, HttpBody.err ⟨RespCode.InternalServerError, "invalid_key", msg⟩⟩ }
        | Except.ok encryptedToken =>
          match env.lastEvent with
          | Except.error msg =>
            { sessions := Registry.insert sessions freshID ⟨freshID, user.ID, freshToken⟩
              cookies := [], deletedEvents := []
              response := ⟨500, HttpBody.err (newErrorResp msg)⟩ }
          | Except.ok lastEventID =>
            { sessions := Registry.insert sessions freshID ⟨freshID, user.ID, freshToken⟩
              cookies := [], deletedEvents := []
              response := ⟨200, HttpBody.auth
                { code := RespCode.Ok
                  AccessToken := encryptedToken
                  ExpiresIn := 360000
                  TokenType := "Bearer"
                  Scope := "full mail payments reset keys"
                  Uid := freshID
                  RefreshToken := "refresh_token"
                  UserStatus := 0
                  PrivateKey := kp.PrivateKey
                  KeySalt := ""
                  EventID := lastEventID }⟩ }

/-- Go `strings.SplitN(s, " ", 2)`, worker: accumulate characters until the
first space; if one is found the rest of the string is the second (and last)
part. -/
def splitN2Aux (acc : List Char) : List Char → List String
  | [] => [String.mk acc.reverse]
  | c :: rest =>
    if c = ' ' then [String.mk acc.reverse, String.mk rest]
    else splitN2Aux (c :: acc) rest

/-- Go `strings.SplitN(s, " ", 2)`: split at the first space only; a string
with no space yields a single part. -/
def splitN2 (s : String) : List String :=
  splitN2Aux [] s.data

/-- The `invalid_authorization` outcome shared by the header checks of
`AuthCookies` (source lines 172-201). -/
def invalidAuthorizationOut (sessions : Registry) : HandlerOut :=
  { sessions := sessions, cookies := [], deletedEvents := []
    response := ⟨200, HttpBody.err
      ⟨RespCode.BadRequest, "invalid_authorization", "Invalid authorization header"⟩⟩ }

/-- The `AuthCookies` handler (source lines 150-213). The session identifier
`uid` (the result of `api.getUid(ctx)`, extracted from request context outside
the provided source file) and the request's `Authorization` header entry
(absent, or a list of values) are explicit inputs, as the spec directs. -/
def AuthCookies (sessions : Registry) (uid : String)
    (authHeader : Option (List String)) : HandlerOut :=
  if uid = "" then
    { sessions := sessions, cookies := [], deletedEvents := []
      response := ⟨200, HttpBody.err ⟨RespCode.BadRequest, "invalid_grant", "No uid provided"⟩⟩ }
  else
    match Registry.lookup sessions uid with
    | none =>
      { sessions := sessions, cookies := [], deletedEvents := []
        response := ⟨200, HttpBody.err ⟨RespCode.BadRequest, "invalid_session", "Invalid UID"⟩⟩ }
    | some session =>
      match authHeader with
      | none => invalidAuthorizationOut sessions
      | some auth =>
        if auth.length = 0 then invalidAuthorizationOut sessions
        else if (splitN2 (auth.headD "")).length ≠ 2 then
          invalidAuthorizationOut sessions
        else if (splitN2 (auth.headD "")).headD "" ≠ "Bearer" ∨
            ((splitN2 (auth.headD "")).drop 1).headD "" ≠ session.Token then
          invalidAuthorizationOut sessions
        else
              { sessions := sessions
                cookies := [⟨"AUTH-" ++ session.Token,
                  CookieValue.auth ⟨session.Token, session.ID⟩,
                  0, "/api/", "", false, true⟩]
                deletedEvents := []
                response := ⟨200, HttpBody.authCookies ⟨RespCode.Ok, session.Token⟩⟩ }

/-- The `DeleteAuth` handler (source lines 215-224). The session token (the
result of `api.getSessionToken(ctx)`, extracted from request context outside
the provided source file) is an explicit input. Note the source deletes the
table entry under the string literal "sessionToken", not under the resolved
token. -/
def DeleteAuth (sessions : Registry) (sessionToken : String) : HandlerOut :=
  if sessionToken ≠ "" then
    { sessions := Registry.erase sessions "sessionToken"
      cookies := [⟨"AUTH-" ++ sessionToken, CookieValue.str "", 0, "/api/", "", false, true⟩]
      deletedEvents := []
      response := ⟨200, HttpBody.plain RespCode.Ok⟩ }
  else
    { sessions := sessions, cookies := [], deletedEvents := []
      response := ⟨200, HttpBody.plain RespCode.Ok⟩ }

/-- Looking up a key after erasing it yields nothing. -/
theorem lookup_erase_self (r : Registry) (k : String) :
    Registry.lookup (Registry.erase r k) k = none := by
  induction r with
  | nil => rfl
  | cons p t ih =>
    by_cases h : p.1 = k
    · simp [Registry.erase, Registry.lookup, List.filter_cons, h, ih]
    · simp only [Registry.erase, List.filter_cons] at ih ⊢
      simp [Registry.lookup, List.find?, h, bne_iff_ne, Ne, ih]

/-- Looking up a key right after inserting it yields the inserted session. -/
theorem lookup_insert_self (r : Registry) (k : String) (v : Session) :
    Registry.lookup (Registry.insert r k v) k = some v := by
  simp [Registry.insert, Registry.lookup, List.find?]

/-- `splitN2Aux` on a space-free suffix yields a single part. -/
theorem splitN2Aux_no_space (l : List Char) (h : ' ' ∉ l) (acc : List Char) :
    splitN2Aux acc l = [String.mk (acc.reverse ++ l)] := by
  induction l generalizing acc with
  | nil => simp [splitN2Aux]
  | cons c rest ih =>
    have hc : ¬ c = ' ' := fun hc => h (hc ▸ List.mem_cons_self c rest)
    rw [splitN2Aux, if_neg hc,
      ih (fun hm => h (List.mem_cons_of_mem _ hm)) (c :: acc)]
    simp

/-- `splitN2Aux` splits at the first space: everything before it joins the
accumulator, everything after it is the second part verbatim. -/
theorem splitN2Aux_space (l₁ : List Char) (h : ' ' ∉ l₁) (l₂ acc : List Char) :
    splitN2Aux acc (l₁ ++ ' ' :: l₂) =
      [String.mk (acc.reverse ++ l₁), String.mk l₂] := by
  induction l₁ generalizing acc with
  | nil => simp [splitN2Aux]
  | cons c rest ih =>
    have hc : ¬ c = ' ' := fun hc => h (hc ▸ List.mem_cons_self c rest)
    rw [List.cons_append, splitN2Aux, if_neg hc,
      ih (fun hm => h (List.mem_cons_of_mem _ hm)) (c :: acc)]
    simp

/-- A string with no space is returned whole by `splitN2`. -/
theorem splitN2_no_space (v : String) (h : ' ' ∉ v.data) : splitN2 v = [v] := by
  rw [splitN2, splitN2Aux_no_space v.data h []]
  rfl

/-- `splitN2` on a space-free prefix, a space and an arbitrary remainder
yields exactly that prefix and that remainder. -/
theorem splitN2_eq_pair (a b : String) (h : ' ' ∉ a.data) :
    splitN2 (a ++ " " ++ b) = [a, b] := by
  have hd : (a ++ " " ++ b).data = a.data ++ ' ' :: b.data := by
    simp [String.data_append]
  rw [splitN2, hd, splitN2Aux_space a.data h b.data []]
  rfl

/-- A `Bearer` header value is split into the scheme and the full remainder,
whatever characters the remainder holds. -/
theorem splitN2_bearer (t : String) :
    splitN2 ("Bearer " ++ t) = ["Bearer", t] := by
  have hd : ("Bearer " ++ t).data =
      ['B', 'e', 'a', 'r', 'e', 'r'] ++ ' ' :: t.data := by
    simp [String.data_append]
  rw [splitN2, hd, splitN2Aux_space ['B', 'e', 'a', 'r', 'e', 'r'] (by decide) t.data []]
  rfl

/-- A one-session registry whose session has ID "id1" and token "tok1";
the concrete revocation input for claim C1. -/
def c1registry : Registry := [("id1", ⟨"id1", "u1", "tok1"⟩)]

/-- Claim C1: the claim says a revocation request with a resolved non-empty
session token removes the Registry entry for that session, so no Session for
that token remains (and twice in a row leaves none). The code instead deletes
the table entry under the string literal "sessionToken": evaluated on a
registry holding the session with token "tok1", the session survives the
revocation, and survives a second revocation too. -/
theorem DeleteAuth_keeps_revoked_session :
    (DeleteAuth c1registry "tok1").sessions = c1registry ∧
    Registry.lookup (DeleteAuth c1registry "tok1").sessions "id1" =
      some ⟨"id1", "u1", "tok1"⟩ ∧
    (DeleteAuth (DeleteAuth c1registry "tok1").sessions "tok1").sessions =
      c1registry := by
  exact ⟨rfl, rfl, rfl⟩

/-- A session whose ID happens to be the literal string "sessionToken"; the
only kind of entry `DeleteAuth` ever removes. -/
def c2session : Session := ⟨"sessionToken", "u2", "tok2"⟩

/-- Claim C2: the claim says every removal of a Session from the Registry,
including removal by the Revocation Flow, invokes the Session's onClose
exactly once. The code's revocation removal is a raw map delete that invokes
no callback: on a registry whose only entry is keyed "sessionToken" (the one
key `DeleteAuth` deletes), the entry is removed, no `DeleteAllEvents` call is
made, while the session's onClose (modelled by `sessionClose`) would have made
exactly one, the removed session being the last one of user "u2". -/
theorem DeleteAuth_removes_without_onClose :
    (DeleteAuth [("sessionToken", c2session)] "tok2").sessions = [] ∧
    (DeleteAuth [("sessionToken", c2session)] "tok2").deletedEvents = [] ∧
    (sessionClose [("sessionToken", c2session)] c2session).2 = ["u2"] := by
  exact ⟨rfl, rfl, rfl⟩

/-- Claim C3: when the teardown closure registered by `Auth` runs for a
session, that session is removed from the registry, and `DeleteAllEvents` is
invoked for the session's user exactly when no other session with the same
UserID remains; in particular a remaining second session of the same user
prevents the invocation. -/
theorem sessionClose_event_stop (sessions : Registry) (session : Session) :
    (sessionClose sessions session).1 = Registry.erase sessions session.ID ∧
    Registry.lookup (sessionClose sessions session).1 session.ID = none ∧
    ((sessionClose sessions session).2 = [session.UserID] ↔
      ∀ p ∈ Registry.erase sessions session.ID, p.2.UserID ≠ session.UserID) ∧
    ((sessionClose sessions session).2 = [] ↔
      ∃ p ∈ Registry.erase sessions session.ID, p.2.UserID = session.UserID) := by
  refine ⟨?_, ?_, ?_, ?_⟩ <;>
    simp only [sessionClose] <;>
    cases h : (Registry.erase sessions session.ID).any
        (fun p => p.2.UserID == session.UserID) <;>
    simp_all [lookup_erase_self, List.any_eq_true, List.any_eq_false] <;>
    exact h

/-- Claim C5: a login whose credential verification fails responds 200 with
an Unauthorized, invalid_grant error carrying the collaborator's message, and
leaves the Registry (and every other observable) unchanged: the handler
returns before any session is created. -/
theorem Auth_invalid_grant_no_session (sessions : Registry) (env : AuthEnv)
    (msg freshID freshToken : String)
    (hauth : env.authResult = Except.error msg) :
    Auth sessions env freshID freshToken =
      { sessions := sessions, cookies := [], deletedEvents := []
        response := ⟨200, HttpBody.err
          ⟨RespCode.Unauthorized, "invalid_grant", msg⟩⟩ } := by
  unfold Auth
  rw [hauth]

/-- Concrete collaborator results for the C5 witness: credential verification
fails with the message "invalid credentials". -/
def c5env : AuthEnv := ⟨Except.error "invalid credentials", none, Except.ok ""⟩

/-- Witness for claim C5 at a concrete failing login. -/
theorem Auth_invalid_grant_no_session_witness :
    c5env.authResult = Except.error "invalid credentials" ∧
    Auth [] c5env "idc5" "tokc5" =
      { sessions := [], cookies := [], deletedEvents := []
        response := ⟨200, HttpBody.err
          ⟨RespCode.Unauthorized, "invalid_grant", "invalid credentials"⟩⟩ } :=
  ⟨rfl, Auth_invalid_grant_no_session [] c5env "invalid credentials"
    "idc5" "tokc5" rfl⟩

/-- Claim C9: every revocation request responds 200 with the plain Ok
envelope, whether or not a token was resolved and whether or not any session
existed for it. -/
theorem DeleteAuth_always_ok (sessions : Registry) (sessionToken : String) :
    (DeleteAuth sessions sessionToken).response =
      ⟨200, HttpBody.plain RespCode.Ok⟩ := by
  unfold DeleteAuth
  split <;> rfl

/-- Claim C4: when credential verification and user-context population both
succeed but the user's main address has zero keys, the handler responds 200
with an error whose description is "User has no private key", and the session
created just before the key check is not rolled back: it is still found in the
registry under its fresh ID after the error response. -/
theorem Auth_no_key_session_survives (sessions : Registry) (env : AuthEnv)
    (user : User) (freshID freshToken : String)
    (hauth : env.authResult = Except.ok user)
    (hpop : env.populateErr = none)
    (hkeys : (User.GetMainAddress user).Keys = []) :
    (Auth sessions env freshID freshToken).response =
      ⟨200, HttpBody.err (newErrorResp "User has no private key")⟩ ∧
    (newErrorResp "User has no private key").ErrorDescription =
      "User has no private key" ∧
    Registry.lookup (Auth sessions env freshID freshToken).sessions freshID =
      some ⟨freshID, user.ID, freshToken⟩ := by
  rcases env with ⟨ar, pe, le⟩
  dsimp only at hauth hpop
  subst hauth
  subst hpop
  dsimp only [Auth]
  rw [hkeys]
  exact ⟨rfl, rfl, lookup_insert_self sessions freshID ⟨freshID, user.ID, freshToken⟩⟩

/-- A user whose main address has an empty key list, for the C4 witness. -/
def c4user : User := ⟨"u4", ⟨[]⟩⟩

/-- Collaborator results for the C4 witness: verification and population
succeed for `c4user`. -/
def c4env : AuthEnv := ⟨Except.ok c4user, none, Except.ok "ev"⟩

/-- Witness for claim C4 at a concrete keyless login. -/
theorem Auth_no_key_session_survives_witness :
    c4env.authResult = Except.ok c4user ∧
    c4env.populateErr = none ∧
    (User.GetMainAddress c4user).Keys = [] ∧
    ((Auth [] c4env "id4" "tok4").response =
        ⟨200, HttpBody.err (newErrorResp "User has no private key")⟩ ∧
      (newErrorResp "User has no private key").ErrorDescription =
        "User has no private key" ∧
      Registry.lookup (Auth [] c4env "id4" "tok4").sessions "id4" =
        some ⟨"id4", "u4", "tok4"⟩) :=
  ⟨rfl, rfl, rfl,
    Auth_no_key_session_survives [] c4env c4user "id4" "tok4" rfl rfl rfl⟩

/-- Claim C6: for a live Session with token T and ID U, a promotion request
carrying identifier U and header value `Bearer T` succeeds outright: it sets
exactly one cookie, named `AUTH-` followed by T, whose payload has AccessToken
T and UID U, leaves the table unchanged, and responds 200 Ok with SessionToken
T. -/
theorem AuthCookies_roundtrip (sessions : Registry) (session : Session)
    (hne : session.ID ≠ "")
    (hlook : Registry.lookup sessions session.ID = some session) :
    AuthCookies sessions session.ID (some ["Bearer " ++ session.Token]) =
      { sessions := sessions
        cookies := [⟨"AUTH-" ++ session.Token,
          CookieValue.auth ⟨session.Token, session.ID⟩, 0, "/api/", "", false, true⟩]
        deletedEvents := []
        response := ⟨200, HttpBody.authCookies ⟨RespCode.Ok, session.Token⟩⟩ } := by
  unfold AuthCookies
  rw [if_neg hne, hlook]
  simp [splitN2_bearer]

/-- A live session for the C6 witness. -/
def c6session : Session := ⟨"sid6", "u6", "tok6"⟩

/-- Witness for claim C6 at a concrete live session. -/
theorem AuthCookies_roundtrip_witness :
    c6session.ID ≠ "" ∧
    Registry.lookup [("sid6", c6session)] c6session.ID = some c6session ∧
    AuthCookies [("sid6", c6session)] c6session.ID
        (some ["Bearer " ++ c6session.Token]) =
      { sessions := [("sid6", c6session)]
        cookies := [⟨"AUTH-" ++ c6session.Token,
          CookieValue.auth ⟨c6session.Token, c6session.ID⟩, 0, "/api/", "", false, true⟩]
        deletedEvents := []
        response := ⟨200, HttpBody.authCookies ⟨RespCode.Ok, c6session.Token⟩⟩ } :=
  ⟨by decide, rfl,
    AuthCookies_roundtrip [("sid6", c6session)] c6session (by decide) rfl⟩

/-- Claim C8: the Cookie Promotion Flow is read-only on the session table: on
every input the table it returns is the table it was given, it deletes no
events, and any cookie it sets names the token of the session the identifier
resolves to and carries exactly that session's (Token, ID) pair. -/
theorem AuthCookies_frame (sessions : Registry) (uid : String)
    (hdr : Option (List String)) :
    (AuthCookies sessions uid hdr).sessions = sessions ∧
    (AuthCookies sessions uid hdr).deletedEvents = [] ∧
    ∀ c ∈ (AuthCookies sessions uid hdr).cookies,
      ∃ s, Registry.lookup sessions uid = some s ∧
        c.name = "AUTH-" ++ s.Token ∧
        c.value = CookieValue.auth ⟨s.Token, s.ID⟩ := by
  unfold AuthCookies invalidAuthorizationOut
  split
  · exact ⟨rfl, rfl, by simp⟩
  · split
    · exact ⟨rfl, rfl, by simp⟩
    · rename_i session hlook
      split
      · exact ⟨rfl, rfl, by simp⟩
      · split
        · exact ⟨rfl, rfl, by simp⟩
        · split
          · exact ⟨rfl, rfl, by simp⟩
          · split
            · exact ⟨rfl, rfl, by simp⟩
            · refine ⟨rfl, rfl, ?_⟩
              intro c hc
              simp only [List.mem_singleton] at hc
              exact ⟨session, hlook, by simp [hc], by simp [hc]⟩

/-- A live session whose token contains a space, for the C7 counterexample. -/
def c7session : Session := ⟨"id7", "u7", "b c"⟩

/-- Counterexample to claim C7 as stated: the header value "Bearer b c"
contains three space-separated tokens, yet the request does not yield
invalid_authorization — it succeeds, because the shape check only asks whether
splitting at the first space produced two parts. -/
theorem AuthCookies_three_token_header_succeeds :
    errKind (AuthCookies [("id7", c7session)] "id7" (some ["Bearer b c"])) ≠
      some "invalid_authorization" ∧
    (AuthCookies [("id7", c7session)] "id7" (some ["Bearer b c"])).response =
      ⟨200, HttpBody.authCookies ⟨RespCode.Ok, "b c"⟩⟩ := by
  exact ⟨by decide, rfl⟩

/-- Claim C7 (amended): the promotion flow rejects, each case with its kind:
an empty identifier yields invalid_grant; a non-empty identifier that resolves
to no session yields invalid_session; a missing Authorization header, an empty
header list, or a first header value containing no space at all, yields
invalid_authorization; otherwise the first header value is split at its first
space, and if the part before that space is not the literal "Bearer", or the
whole remainder after it is not exactly the Session's Token, the request
yields invalid_authorization. -/
theorem AuthCookies_rejections (sessions : Registry) :
    (∀ hdr, errKind (AuthCookies sessions "" hdr) = some "invalid_grant") ∧
    (∀ uid hdr, uid ≠ "" → Registry.lookup sessions uid = none →
      errKind (AuthCookies sessions uid hdr) = some "invalid_session") ∧
    (∀ uid s, uid ≠ "" → Registry.lookup sessions uid = some s →
      errKind (AuthCookies sessions uid none) = some "invalid_authorization") ∧
    (∀ uid s, uid ≠ "" → Registry.lookup sessions uid = some s →
      errKind (AuthCookies sessions uid (some [])) =
        some "invalid_authorization") ∧
    (∀ uid s v rest, uid ≠ "" → Registry.lookup sessions uid = some s →
      ' ' ∉ v.data →
      errKind (AuthCookies sessions uid (some (v :: rest))) =
        some "invalid_authorization") ∧
    (∀ uid s a b rest, uid ≠ "" → Registry.lookup sessions uid = some s →
      ' ' ∉ a.data → (a ≠ "Bearer" ∨ b ≠ s.Token) →
      errKind (AuthCookies sessions uid (some ((a ++ " " ++ b) :: rest))) =
        some "invalid_authorization") := by
  refine ⟨?_, ?_, ?_, ?_, ?_, ?_⟩
  · intro hdr
    rfl
  · intro uid hdr hne hlook
    unfold AuthCookies
    rw [if_neg hne, hlook]
    rfl
  · intro uid s hne hlook
    unfold AuthCookies
    rw [if_neg hne, hlook]
    rfl
  · intro uid s hne hlook
    unfold AuthCookies
    rw [if_neg hne, hlook]
    rfl
  · intro uid s v rest hne hlook hsp
    unfold AuthCookies
    rw [if_neg hne, hlook]
    simp [errKind, invalidAuthorizationOut, splitN2_no_space v hsp]
  · intro uid s a b rest hne hlook hsp hab
    unfold AuthCookies
    rw [if_neg hne, hlook]
    rcases hab with hab | hab <;>
      simp [errKind, invalidAuthorizationOut, splitN2_eq_pair a b hsp, hab]

/-- A live session for the C7 witness. -/
def c7wSession : Session := ⟨"idw", "uw", "tw"⟩

/-- Witness for claim C7 (amended) at a concrete rejected request: a header
with scheme "Basic" instead of "Bearer". -/
theorem AuthCookies_rejections_witness :
    ("idw" : String) ≠ "" ∧
    Registry.lookup [("idw", c7wSession)] "idw" = some c7wSession ∧
    ' ' ∉ ("Basic" : String).data ∧
    (("Basic" : String) ≠ "Bearer" ∨ ("tw" : String) ≠ c7wSession.Token) ∧
    errKind (AuthCookies [("idw", c7wSession)] "idw"
        (some ["Basic" ++ " " ++ "tw"])) = some "invalid_authorization" :=
  ⟨by decide, rfl, by decide, Or.inl (by decide),
    (AuthCookies_rejections [("idw", c7wSession)]).2.2.2.2.2 "idw" c7wSession
      "Basic" "tw" [] (by decide) rfl (by decide) (Or.inl (by decide))⟩

/-- Claim C10: the Authorization header is split at the first space only: for
a header value of the form `Bearer ` followed by any remainder — spaces in the
remainder included — the two-part shape check passes, and the request succeeds
exactly when the remainder equals the Session's Token; a token containing
spaces is therefore accepted through such a header. -/
theorem AuthCookies_splits_at_first_space (sessions : Registry) (s : Session)
    (uid rest : String) (huid : uid ≠ "")
    (hlook : Registry.lookup sessions uid = some s) (hsp : ' ' ∈ rest.data) :
    (splitN2 ("Bearer " ++ rest)).length = 2 ∧
    ((AuthCookies sessions uid (some ["Bearer " ++ rest])).response =
        ⟨200, HttpBody.authCookies ⟨RespCode.Ok, s.Token⟩⟩ ↔
      rest = s.Token) := by
  constructor
  · rw [splitN2_bearer]
    rfl
  · constructor
    · intro hok
      by_contra hne
      unfold AuthCookies at hok
      rw [if_neg huid, hlook] at hok
      simp [splitN2_bearer, invalidAuthorizationOut, hne] at hok
    · intro he
      unfold AuthCookies
      rw [if_neg huid, hlook]
      simp [splitN2_bearer, he]

/-- A live session whose token "x y" contains a space, for the C10 witness. -/
def c10session : Session := ⟨"idA", "uA", "x y"⟩

/-- Witness for claim C10: a session token containing a space is accepted
through a header with more than two space-separated tokens. -/
theorem AuthCookies_splits_at_first_space_witness :
    ("idA" : String) ≠ "" ∧
    Registry.lookup [("idA", c10session)] "idA" = some c10session ∧
    ' ' ∈ ("x y" : String).data ∧
    ((splitN2 ("Bearer " ++ "x y")).length = 2 ∧
      ((AuthCookies [("idA", c10session)] "idA"
          (some ["Bearer " ++ "x y"])).response =
          ⟨200, HttpBody.authCookies ⟨RespCode.Ok, c10session.Token⟩⟩ ↔
        ("x y" : String) = c10session.Token)) :=
  ⟨by decide, rfl, by decide,
    AuthCookies_splits_at_first_space [("idA", c10session)] c10session "idA"
      "x y" (by decide) rfl (by decide)⟩

end Neutron
